import Mathlib

/-! atirario-back: entity registry, simulation tick, population cap, client ingest

A shallow embedding of `main.go`.

* The registry `entitites []Entity` is a `List Entity`; every operation is a pure
  function from the registry before to the registry after, i.e. one critical
  section of `entitiesMux` taken on its own.
* `float64` fields are rationals with exact arithmetic (every finite `float64` is a
  rational; rounding, infinities and NaN are left out).
* `math.Pi`, `math.Cos`, `math.Sin` belong to the Go standard library, not to the
  repository: they are the three fields of `Trig`, and every general statement holds
  for all of them.  `goTrig` is a small table of their values that the worked
  examples are evaluated with.
* The random draws of `generateRandomPlayer` and the frames a connection delivers
  are explicit arguments.
-/

namespace Atirario

/-- The `Entity` struct of `main.go`. -/
structure Entity where
  ID : String
  X : ℚ
  Y : ℚ
  Size : ℚ
  Speed : ℚ
  AngleInDegrees : ℚ
deriving DecidableEq

/-- The three names `updatePlayers` takes from package `math`. -/
structure Trig where
  Pi : ℚ
  Cos : ℚ → ℚ
  Sin : ℚ → ℚ

/-! ## `updatePlayers` -/

/-- Line 179: `Speed * dt * math.Cos(AngleInDegrees*math.Pi/180)`. -/
def displacementX (T : Trig) (dt : ℚ) (e : Entity) : ℚ :=
  e.Speed * dt * T.Cos (e.AngleInDegrees * T.Pi / 180)

/-- Line 180: `Speed * dt * math.Sin(AngleInDegrees*math.Pi/180)`. -/
def displacementY (T : Trig) (dt : ℚ) (e : Entity) : ℚ :=
  e.Speed * dt * T.Sin (e.AngleInDegrees * T.Pi / 180)

/-- Line 182. -/
def newPositionX (T : Trig) (dt : ℚ) (e : Entity) : ℚ :=
  e.X + displacementX T dt e

/-- Line 183. -/
def newPositionY (T : Trig) (dt : ℚ) (e : Entity) : ℚ :=
  e.Y + displacementY T dt e

/-- Lines 185, 189-193: the horizontal probe, before any clamping. -/
def colisionPositionX (T : Trig) (dt : ℚ) (e : Entity) : ℚ :=
  if displacementX T dt e > 0 then newPositionX T dt e + e.Size
  else newPositionX T dt e - e.Size

/-- Lines 186, 194-198: the vertical probe, before any clamping. -/
def colisionPositionY (T : Trig) (dt : ℚ) (e : Entity) : ℚ :=
  if displacementY T dt e > 0 then newPositionY T dt e + e.Size
  else newPositionY T dt e - e.Size

/-- Lines 200-209 applied to the entity `cur` being rewritten, with the probe and
the new position computed from the entity `e` as it was when the iteration began. -/
def horizontalStep (T : Trig) (dt : ℚ) (e cur : Entity) : Entity :=
  if colisionPositionX T dt e > 1920 / 2 then
    { cur with AngleInDegrees := 180 - cur.AngleInDegrees }
  else if colisionPositionX T dt e < -1920 / 2 then
    { cur with AngleInDegrees := 180 - cur.AngleInDegrees }
  else
    { cur with X := newPositionX T dt e }

/-- Lines 211-214: the first vertical `if`, which has no `else`.  It returns the
entity and the (possibly clamped) probe that line 215 then tests. -/
def upperStep (T : Trig) (dt : ℚ) (e cur : Entity) : Entity × ℚ :=
  if colisionPositionY T dt e > 1080 / 2 then
    ({ cur with AngleInDegrees := 360 - cur.AngleInDegrees }, 1080 / 2)
  else
    (cur, colisionPositionY T dt e)

/-- Lines 215-220: the second vertical `if`/`else`, on the probe left by line 213. -/
def lowerStep (T : Trig) (dt : ℚ) (e : Entity) (st : Entity × ℚ) : Entity :=
  if st.2 < -1080 / 2 then
    { st.1 with AngleInDegrees := 360 - st.1.AngleInDegrees }
  else
    { st.1 with Y := newPositionY T dt e }

/-- One iteration of the loop of `updatePlayers` (lines 179-220). -/
def updatePlayer (T : Trig) (dt : ℚ) (e : Entity) : Entity :=
  lowerStep T dt e (upperStep T dt e (horizontalStep T dt e e))

/-- The function `updatePlayers` (lines 174-222): the loop visits every index once. -/
def updatePlayers (T : Trig) (dt : ℚ) (entitites : List Entity) : List Entity :=
  entitites.map (updatePlayer T dt)

/-- Lines 91-103 of `handleWebSocket`: replace the first entity with the player's id,
append when there is none. -/
def upsert : List Entity → Entity → List Entity
  | [], player => [player]
  | p :: ps, player =>
    if p.ID = player.ID then player :: ps else p :: upsert ps player

/-- The function `removePlayer` (lines 235-245): drop the first entity with the id. -/
def removePlayer : List Entity → String → List Entity
  | [], _ => []
  | player :: rest, playerID =>
    if player.ID = playerID then rest else player :: removePlayer rest playerID

/-- The read loop of `handleWebSocket` (lines 71-105) on a connection that delivers
`frames` and then fails to read.  A frame is `some player` when its payload decodes
as an Entity and `none` when it does not.  Each iteration takes one frame with
`conn.ReadMessage` (line 72, the payload is dropped) and the next one with
`conn.ReadJSON` (line 85); only the latter is applied to the registry.  A failure
of `ReadMessage` removes the session's entity (line 75), a failure of `ReadJSON`
only returns (lines 86-89). -/
def handleWebSocket (remoteAddress : String) : List (Option Entity) → List Entity → List Entity
  | [], entitites => removePlayer entitites remoteAddress
  | [_], entitites => entitites
  | _ :: none :: _, entitites => entitites
  | _ :: some player :: rest, entitites =>
    handleWebSocket remoteAddress rest (upsert entitites player)

/-! ## Population -/

/-- The conversion `rune(n)` of an `int`: the low 32 bits, read as signed. -/
def runeOfInt (n : Int) : Int :=
  if n % 2 ^ 32 < 2 ^ 31 then n % 2 ^ 32 else n % 2 ^ 32 - 2 ^ 32

/-- The conversion `string(r)` of a rune: the UTF-8 text of the code point, and
U+FFFD for a value that is not a valid code point. -/
def stringOfRune (r : Int) : String :=
  if (0 ≤ r ∧ r < 0xD800) ∨ (0xDFFF < r ∧ r ≤ 0x10FFFF) then
    String.singleton (Char.ofNat r.toNat)
  else
    String.singleton (Char.ofNat 0xFFFD)

/-- The function `generateRandomPlayer` (lines 224-233); `n` is the value of
`rand.Intn(10000000000)` and `r1`, `r2`, `r3` the three values of `rand.Float64()`. -/
def generateRandomPlayer (n : Nat) (r1 r2 r3 : ℚ) : Entity :=
  { ID := stringOfRune (runeOfInt n)
    X := 0
    Y := 0
    Size := (r1 * 50 + 50) / 10
    Speed := r2 * 300 + 300
    AngleInDegrees := r3 * 360 }

/-- The `newPlayerTicker` case of `gameLoop` (lines 159-169): append the new player,
then empty the registry when it holds more than 10. -/
def newPlayerTick (entitites : List Entity) (newPlayer : Entity) : List Entity :=
  if (entitites ++ [newPlayer]).length > 10 then [] else entitites ++ [newPlayer]

/-! ## Library values for the worked examples -/

/-- The `float64` value of `math.Pi`. -/
def goPi : ℚ := 884279719003555 / 281474976710656

/-- Values of `math.Cos` at 0, 90 and 300 degrees, to about 16 significant digits; a
short Taylor polynomial elsewhere. -/
def goCos (a : ℚ) : ℚ :=
  if a = 0 then 1
  else if a = 90 * goPi / 180 then 6123233995736766 / 10 ^ 32
  else if a = 300 * goPi / 180 then 5000000000000001 / 10 ^ 16
  else 1 - a ^ 2 / 2 + a ^ 4 / 24

/-- Values of `math.Sin` at 0, 90 and 300 degrees, to about 16 significant digits; a
short Taylor polynomial elsewhere. -/
def goSin (a : ℚ) : ℚ :=
  if a = 0 then 0
  else if a = 90 * goPi / 180 then 1
  else if a = 300 * goPi / 180 then -8660254037844386 / 10 ^ 16
  else a - a ^ 3 / 6

/-- The table above as a `Trig`. -/
def goTrig : Trig := ⟨goPi, goCos, goSin⟩

/-- No two entities of the registry share an id. -/
def UniqueIDs (entitites : List Entity) : Prop :=
  (entitites.map Entity.ID).Nodup

instance (entitites : List Entity) : Decidable (UniqueIDs entitites) := by
  unfold UniqueIDs; infer_instance

/-! ## What one iteration of `updatePlayers` does to each field -/

theorem updatePlayer_ID (T : Trig) (dt : ℚ) (e : Entity) :
    (updatePlayer T dt e).ID = e.ID := by
  unfold updatePlayer lowerStep upperStep horizontalStep
  split_ifs <;> rfl

theorem updatePlayer_X (T : Trig) (dt : ℚ) (e : Entity) :
    (updatePlayer T dt e).X =
      if colisionPositionX T dt e > 960 ∨ colisionPositionX T dt e < -960 then e.X
      else newPositionX T dt e := by
  have h1 : (1920 : ℚ) / 2 = 960 := by norm_num
  have h2 : (-1920 : ℚ) / 2 = -960 := by norm_num
  unfold updatePlayer lowerStep upperStep horizontalStep
  rw [h1, h2]
  split_ifs <;> first | rfl | (exfalso; tauto)

theorem updatePlayer_Y (T : Trig) (dt : ℚ) (e : Entity) :
    (updatePlayer T dt e).Y =
      if colisionPositionY T dt e < -540 then e.Y else newPositionY T dt e := by
  have h1 : (1080 : ℚ) / 2 = 540 := by norm_num
  have h2 : (-1080 : ℚ) / 2 = -540 := by norm_num
  unfold updatePlayer lowerStep upperStep horizontalStep
  rw [h1, h2]
  split_ifs <;> first | rfl | (exfalso; simp only [] at *; linarith)

theorem updatePlayer_Angle (T : Trig) (dt : ℚ) (e : Entity) :
    (updatePlayer T dt e).AngleInDegrees =
      if colisionPositionY T dt e > 540 ∨ colisionPositionY T dt e < -540 then
        360 - (if colisionPositionX T dt e > 960 ∨ colisionPositionX T dt e < -960 then
          180 - e.AngleInDegrees else e.AngleInDegrees)
      else
        (if colisionPositionX T dt e > 960 ∨ colisionPositionX T dt e < -960 then
          180 - e.AngleInDegrees else e.AngleInDegrees) := by
  have h1 : (1080 : ℚ) / 2 = 540 := by norm_num
  have h2 : (-1080 : ℚ) / 2 = -540 := by norm_num
  have h3 : (1920 : ℚ) / 2 = 960 := by norm_num
  have h4 : (-1920 : ℚ) / 2 = -960 := by norm_num
  have h5 : ¬ ((540 : ℚ) < -540) := by norm_num
  unfold updatePlayer lowerStep upperStep horizontalStep
  rw [h1, h2, h3, h4]
  generalize colisionPositionX T dt e = cx
  generalize colisionPositionY T dt e = cy
  by_cases hx1 : cx > 960 <;> by_cases hx2 : cx < -960 <;>
    by_cases hy1 : cy > 540 <;> by_cases hy2 : cy < -540 <;>
    simp only [hx1, hx2, hy1, hy2, h5, if_true, if_false, or_true, true_or, or_false, or_self]

theorem updatePlayer_Y_above (T : Trig) (dt : ℚ) (e : Entity)
    (h : colisionPositionY T dt e > 540) :
    (updatePlayer T dt e).Y = e.Y + displacementY T dt e := by
  rw [updatePlayer_Y, if_neg (by linarith)]
  rfl

theorem updatePlayer_Y_below (T : Trig) (dt : ℚ) (e : Entity)
    (h : colisionPositionY T dt e < -540) :
    (updatePlayer T dt e).Y = e.Y := by
  rw [updatePlayer_Y, if_pos h]

theorem updatePlayers_getElem? (T : Trig) (dt : ℚ) (es : List Entity) (i : Nat) :
    (updatePlayers T dt es)[i]? = (es[i]?).map (updatePlayer T dt) := by
  simp [updatePlayers]

/-- C1 (the code departs from the claim): an entity at y = 538 with size 5, speed 600
and heading 90 degrees, ticked with dt = 1/60, has its vertical probe at 553, above
+540; the tick reflects the heading to 270 but moves y to 548 instead of holding
it at 538. -/
theorem C1_upper_boundary_moves_y :
    colisionPositionY goTrig (1 / 60) ⟨"a", 0, 538, 5, 600, 90⟩ = 553 ∧
    (updatePlayers goTrig (1 / 60) [⟨"a", 0, 538, 5, 600, 90⟩]).map
      (fun e => (e.Y, e.AngleInDegrees)) = [(548, 270)] := by
  constructor
  · norm_num [colisionPositionY, newPositionY, displacementY, goTrig, goSin, goPi]
  · norm_num [updatePlayers, updatePlayer, lowerStep, upperStep, horizontalStep,
      colisionPositionY, colisionPositionX, newPositionX, newPositionY, displacementY,
      displacementX, goTrig, goSin, goCos, goPi]

/-- C3 as stated fails at a corner: an entity at x = 958, y = -538 with size 5, speed
600 and heading 300 degrees, ticked with dt = 1/60, moves right (dx > 0) with its
horizontal probe beyond +960, and its vertical probe is below -540 in the same
tick; the heading ends at 360 - (180 - 300) = 480, not at 180 - 300 = -120. -/
theorem C3_counterexample :
    displacementX goTrig (1 / 60) ⟨"a", 958, -538, 5, 600, 300⟩ > 0 ∧
    (958 : ℚ) + displacementX goTrig (1 / 60) ⟨"a", 958, -538, 5, 600, 300⟩ + 5 > 960 ∧
    (updatePlayers goTrig (1 / 60) [⟨"a", 958, -538, 5, 600, 300⟩]).map
      (fun e => (e.X, e.AngleInDegrees)) = [(958, 480)] ∧
    (180 : ℚ) - 300 = -120 := by
  refine ⟨?_, ?_, ?_, ?_⟩
  · norm_num [displacementX, goTrig, goCos, goPi]
  · norm_num [displacementX, goTrig, goCos, goPi]
  · norm_num [updatePlayers, updatePlayer, lowerStep, upperStep, horizontalStep,
      colisionPositionY, colisionPositionX, newPositionX, newPositionY, displacementY,
      displacementX, goTrig, goSin, goCos, goPi]
  · norm_num

/-- C3 (amended): for every entity of the registry and every dt with horizontal
displacement dx = speed*dt*cos(angle) > 0 and probe x + dx + size > 960, after one
updatePlayers tick the entity's x equals its pre-tick x, and its angle equals
180 - (pre-tick angle) whenever the vertical probe of the same tick lies within
[-540, 540]. -/
theorem C3_right_boundary_reflection (T : Trig) (dt : ℚ) (es : List Entity) (i : Nat)
    (e : Entity) (hi : es[i]? = some e)
    (hdx : e.Speed * dt * T.Cos (e.AngleInDegrees * T.Pi / 180) > 0)
    (hprobe : e.X + e.Speed * dt * T.Cos (e.AngleInDegrees * T.Pi / 180) + e.Size > 960) :
    ∃ e1 : Entity, (updatePlayers T dt es)[i]? = some e1 ∧ e1.X = e.X ∧
      (-540 ≤ colisionPositionY T dt e → colisionPositionY T dt e ≤ 540 →
        e1.AngleInDegrees = 180 - e.AngleInDegrees) := by
  have hc : colisionPositionX T dt e > 960 := by
    unfold colisionPositionX newPositionX displacementX
    rw [if_pos hdx]
    exact hprobe
  refine ⟨updatePlayer T dt e, ?_, ?_, ?_⟩
  · rw [updatePlayers_getElem?, hi]
    rfl
  · rw [updatePlayer_X, if_pos (Or.inl hc)]
  · intro h1 h2
    rw [updatePlayer_Angle, if_neg (by rintro (h | h) <;> linarith), if_pos (Or.inl hc)]

/-- C3 (amended), at the entity of the scenario: x = 958, size 5, speed 600, angle 0,
dt = 1/60 gives x = 958 and angle 180. -/
theorem C3_right_boundary_reflection_witness :
    ∃ e1 : Entity, (updatePlayers goTrig (1 / 60) [⟨"a", 958, 0, 5, 600, 0⟩])[0]? = some e1 ∧
      e1.X = 958 ∧ e1.AngleInDegrees = 180 := by
  obtain ⟨e1, h1, h2, h3⟩ := C3_right_boundary_reflection goTrig (1 / 60)
    [⟨"a", 958, 0, 5, 600, 0⟩] 0 ⟨"a", 958, 0, 5, 600, 0⟩ rfl
    (by norm_num [goTrig, goCos]) (by norm_num [goTrig, goCos])
  refine ⟨e1, h1, h2, ?_⟩
  have h4 := h3 (by norm_num [colisionPositionY, newPositionY, displacementY, goTrig, goSin])
    (by norm_num [colisionPositionY, newPositionY, displacementY, goTrig, goSin])
  rw [h4]
  norm_num

/-- C4: for every entity of the registry and every dt for which neither probe leaves
the arena (-960 <= probeX <= 960 and -540 <= probeY <= 540), one updatePlayers tick
sets x to x + speed*dt*cos(angle*pi/180), y to y + speed*dt*sin(angle*pi/180) and
leaves the angle as it was. -/
theorem C4_free_movement (T : Trig) (dt : ℚ) (es : List Entity) (i : Nat) (e : Entity)
    (hi : es[i]? = some e)
    (hx1 : -960 ≤ colisionPositionX T dt e) (hx2 : colisionPositionX T dt e ≤ 960)
    (hy1 : -540 ≤ colisionPositionY T dt e) (hy2 : colisionPositionY T dt e ≤ 540) :
    ∃ e1 : Entity, (updatePlayers T dt es)[i]? = some e1 ∧
      e1.X = e.X + e.Speed * dt * T.Cos (e.AngleInDegrees * T.Pi / 180) ∧
      e1.Y = e.Y + e.Speed * dt * T.Sin (e.AngleInDegrees * T.Pi / 180) ∧
      e1.AngleInDegrees = e.AngleInDegrees := by
  refine ⟨updatePlayer T dt e, ?_, ?_, ?_, ?_⟩
  · rw [updatePlayers_getElem?, hi]
    rfl
  · rw [updatePlayer_X, if_neg (by rintro (h | h) <;> linarith)]
    rfl
  · rw [updatePlayer_Y, if_neg (by linarith)]
    rfl
  · rw [updatePlayer_Angle, if_neg (by rintro (h | h) <;> linarith),
      if_neg (by rintro (h | h) <;> linarith)]

/-- C4, at the entity of the scenario: id "a", x = 0, y = 0, speed 300, angle 0 and
size 7, and then any size in [5, 10]; ticked with dt = 1/60 it ends at x = 5, y = 0,
angle 0. -/
theorem C4_free_movement_witness :
    (∃ e1 : Entity, (updatePlayers goTrig (1 / 60) [⟨"a", 0, 0, 7, 300, 0⟩])[0]? = some e1 ∧
        e1.X = 5 ∧ e1.Y = 0 ∧ e1.AngleInDegrees = 0) ∧
    (∀ size : ℚ, 5 ≤ size → size ≤ 10 →
      ∃ e1 : Entity, (updatePlayers goTrig (1 / 60) [⟨"a", 0, 0, size, 300, 0⟩])[0]? = some e1 ∧
        e1.X = 5 ∧ e1.Y = 0 ∧ e1.AngleInDegrees = 0) := by
  have key : ∀ size : ℚ, 5 ≤ size → size ≤ 10 →
      ∃ e1 : Entity, (updatePlayers goTrig (1 / 60) [⟨"a", 0, 0, size, 300, 0⟩])[0]? = some e1 ∧
        e1.X = 5 ∧ e1.Y = 0 ∧ e1.AngleInDegrees = 0 := by
    intro size h5 h10
    have hX : colisionPositionX goTrig (1 / 60) ⟨"a", 0, 0, size, 300, 0⟩ = 5 + size := by
      norm_num [colisionPositionX, newPositionX, displacementX, goTrig, goCos]
    have hY : colisionPositionY goTrig (1 / 60) ⟨"a", 0, 0, size, 300, 0⟩ = -size := by
      norm_num [colisionPositionY, newPositionY, displacementY, goTrig, goSin]
    obtain ⟨e1, h1, h2, h3, h4⟩ := C4_free_movement goTrig (1 / 60)
      [⟨"a", 0, 0, size, 300, 0⟩] 0 ⟨"a", 0, 0, size, 300, 0⟩ rfl
      (by rw [hX]; linarith) (by rw [hX]; linarith) (by rw [hY]; linarith)
      (by rw [hY]; linarith)
    refine ⟨e1, h1, ?_, ?_, h4⟩
    · rw [h2]; norm_num [goTrig, goCos]
    · rw [h3]; norm_num [goTrig, goSin]
  exact ⟨key 7 (by norm_num) (by norm_num), key⟩

theorem upsert_replaces_last (es : List Entity) (e1 e2 : Entity) (hid : e1.ID = e2.ID) :
    upsert (upsert es e1) e2 = upsert es e2 := by
  induction es with
  | nil => simp [upsert, hid]
  | cons p ps ih =>
    by_cases hp : p.ID = e1.ID
    · have hp2 : p.ID = e2.ID := hp.trans hid
      simp [upsert, hp, hp2, hid]
    · have hp2 : ¬ p.ID = e2.ID := fun h => hp (h.trans hid.symm)
      simp [upsert, hp, hp2, ih]

theorem upsert_ids (es : List Entity) (e : Entity) :
    (upsert es e).map Entity.ID =
      if e.ID ∈ es.map Entity.ID then es.map Entity.ID else es.map Entity.ID ++ [e.ID] := by
  induction es with
  | nil => simp [upsert]
  | cons p ps ih =>
    by_cases hp : p.ID = e.ID
    · simp [upsert, hp]
    · have hp2 : ¬ e.ID = p.ID := fun h => hp h.symm
      simp only [upsert, hp, if_false, List.map_cons, ih, List.mem_cons, hp2, false_or]
      split_ifs <;> simp

theorem upsert_length (es : List Entity) (e : Entity) :
    (upsert es e).length =
      if e.ID ∈ es.map Entity.ID then es.length else es.length + 1 := by
  have h := congrArg List.length (upsert_ids es e)
  rw [List.length_map] at h
  rw [h]
  split_ifs <;> simp

theorem upsert_unique (es : List Entity) (e : Entity) (h : UniqueIDs es) :
    UniqueIDs (upsert es e) := by
  unfold UniqueIDs at *
  rw [upsert_ids]
  split_ifs with hm
  · exact h
  · exact List.Nodup.append h (List.nodup_singleton _) (by simpa using hm)

theorem upsert_filter_same (es : List Entity) (e : Entity) (h : UniqueIDs es) :
    (upsert es e).filter (fun p => p.ID = e.ID) = [e] := by
  induction es with
  | nil => simp [upsert]
  | cons p ps ih =>
    have hnd : (p.ID :: ps.map Entity.ID).Nodup := h
    rw [List.nodup_cons] at hnd
    by_cases hp : p.ID = e.ID
    · have hps : ∀ q ∈ ps, ¬ q.ID = e.ID := by
        intro q hq hqe
        exact hnd.1 (List.mem_map.mpr ⟨q, hq, hqe.trans hp.symm⟩)
      simp only [upsert, hp, if_true]
      rw [List.filter_cons_of_pos (by simp)]
      rw [List.filter_eq_nil_iff.mpr (by simpa using hps)]
    · simp only [upsert, hp, if_false]
      rw [List.filter_cons_of_neg (by simpa using hp)]
      exact ih hnd.2

theorem upsert_filter_other (es : List Entity) (e : Entity) :
    (upsert es e).filter (fun p => p.ID ≠ e.ID) = es.filter (fun p => p.ID ≠ e.ID) := by
  induction es with
  | nil => simp [upsert]
  | cons p ps ih =>
    by_cases hp : p.ID = e.ID
    · simp [upsert, hp]
    · simp only [upsert, hp, if_false]
      rw [List.filter_cons_of_pos (by simpa using hp), List.filter_cons_of_pos (by simpa using hp), ih]

theorem upsert_getElem?_other (es : List Entity) (e p : Entity) (i : Nat)
    (hi : es[i]? = some p) (hp : p.ID ≠ e.ID) : (upsert es e)[i]? = some p := by
  induction es generalizing i with
  | nil => simp at hi
  | cons q qs ih =>
    cases i with
    | zero =>
      simp only [List.getElem?_cons_zero, Option.some.injEq] at hi
      subst hi
      simp [upsert, hp]
    | succ j =>
      simp only [List.getElem?_cons_succ] at hi
      by_cases hq : q.ID = e.ID
      · simp [upsert, hq, hi]
      · simp [upsert, hq, ih j hi]

theorem removePlayer_absent (es : List Entity) (s : String)
    (h : ∀ e ∈ es, e.ID ≠ s) : removePlayer es s = es := by
  induction es with
  | nil => rfl
  | cons p ps ih =>
    have hp : ¬ p.ID = s := h p (List.mem_cons_self _ _)
    simp only [removePlayer, hp, if_false]
    rw [ih (fun e he => h e (List.mem_cons_of_mem _ he))]

theorem removePlayer_eq_filter (es : List Entity) (s : String) (h : UniqueIDs es) :
    removePlayer es s = es.filter (fun e => e.ID ≠ s) := by
  induction es with
  | nil => rfl
  | cons p ps ih =>
    have hnd : (p.ID :: ps.map Entity.ID).Nodup := h
    rw [List.nodup_cons] at hnd
    by_cases hp : p.ID = s
    · have hps : ∀ q ∈ ps, q.ID ≠ s := by
        intro q hq hqe
        exact hnd.1 (List.mem_map.mpr ⟨q, hq, hqe.trans hp.symm⟩)
      simp only [removePlayer, hp, if_true]
      rw [List.filter_cons_of_neg (by simpa using hp)]
      exact (List.filter_eq_self.mpr (by simpa using hps)).symm
    · simp only [removePlayer, hp, if_false]
      rw [List.filter_cons_of_pos (by simpa using hp), ih hnd.2]

theorem removePlayer_length (es : List Entity) (s : String) (h : ∃ e ∈ es, e.ID = s) :
    (removePlayer es s).length + 1 = es.length := by
  induction es with
  | nil => simp at h
  | cons p ps ih =>
    by_cases hp : p.ID = s
    · simp [removePlayer, hp]
    · have h2 : ∃ e ∈ ps, e.ID = s := by
        obtain ⟨e, he, hes⟩ := h
        rcases List.mem_cons.mp he with rfl | he
        · exact absurd hes hp
        · exact ⟨e, he, hes⟩
      simp [removePlayer, hp, ih h2]

theorem removePlayer_unique (es : List Entity) (s : String) (h : UniqueIDs es) :
    UniqueIDs (removePlayer es s) := by
  rw [removePlayer_eq_filter es s h]
  unfold UniqueIDs at *
  exact (h.sublist (List.Sublist.map _ (List.filter_sublist _)))

theorem updatePlayers_ids (T : Trig) (dt : ℚ) (es : List Entity) :
    (updatePlayers T dt es).map Entity.ID = es.map Entity.ID := by
  simp [updatePlayers, Function.comp_def, updatePlayer_ID]

theorem updatePlayers_unique (T : Trig) (dt : ℚ) (es : List Entity) (h : UniqueIDs es) :
    UniqueIDs (updatePlayers T dt es) := by
  unfold UniqueIDs at *
  rw [updatePlayers_ids]
  exact h

theorem newPlayerTick_unique (es : List Entity) (newPlayer : Entity) (h : UniqueIDs es)
    (hfresh : newPlayer.ID ∉ es.map Entity.ID) : UniqueIDs (newPlayerTick es newPlayer) := by
  unfold newPlayerTick
  split_ifs
  · exact List.nodup_nil
  · unfold UniqueIDs at *
    rw [List.map_append]
    exact List.Nodup.append h (List.nodup_singleton _) (by simpa using hfresh)

theorem handleWebSocket_pairs (s : String) (ps : List (Entity × Entity)) (es : List Entity) :
    handleWebSocket s (ps.flatMap (fun p => [some p.1, some p.2])) es =
      removePlayer (ps.foldl (fun r p => upsert r p.2) es) s := by
  induction ps generalizing es with
  | nil => rfl
  | cons p ps ih =>
    simp only [List.flatMap_cons, List.cons_append, List.nil_append, List.foldl_cons,
      handleWebSocket]
    exact ih (upsert es p.2)

/-- C5: for every registry of n entities and every spawned entity, the population
step yields the registry with the new entity appended last (size n + 1) when
n + 1 <= 10, and the empty registry when n + 1 > 10; inserting an 11th entity into
a registry of 10 leaves size 0. -/
theorem C5_population_cap (es : List Entity) (newPlayer : Entity) :
    (es.length + 1 ≤ 10 →
      newPlayerTick es newPlayer = es ++ [newPlayer] ∧
      (newPlayerTick es newPlayer).length = es.length + 1 ∧
      (newPlayerTick es newPlayer).getLast? = some newPlayer) ∧
    (es.length + 1 > 10 →
      newPlayerTick es newPlayer = [] ∧ (newPlayerTick es newPlayer).length = 0) ∧
    (es.length = 10 → (newPlayerTick es newPlayer).length = 0) := by
  refine ⟨?_, ?_, ?_⟩
  · intro h
    have h1 : newPlayerTick es newPlayer = es ++ [newPlayer] := by
      unfold newPlayerTick
      rw [if_neg (by simp only [List.length_append, List.length_singleton]; omega)]
    rw [h1]
    simp
  · intro h
    have h1 : newPlayerTick es newPlayer = [] := by
      unfold newPlayerTick
      rw [if_pos (by simp only [List.length_append, List.length_singleton]; omega)]
    rw [h1]
    simp
  · intro h
    unfold newPlayerTick
    rw [if_pos (by simp only [List.length_append, List.length_singleton]; omega)]
    rfl

/-- C5, at the empty registry and at a registry of ten entities, with a player drawn
by `generateRandomPlayer`. -/
theorem C5_population_cap_witness :
    newPlayerTick [] (generateRandomPlayer 65 (1 / 2) (1 / 2) (1 / 2)) =
      [generateRandomPlayer 65 (1 / 2) (1 / 2) (1 / 2)] ∧
    (newPlayerTick ((List.range 10).map (fun k => (⟨toString k, 0, 0, 5, 300, 0⟩ : Entity)))
      (generateRandomPlayer 65 (1 / 2) (1 / 2) (1 / 2))).length = 0 :=
  ⟨((C5_population_cap [] (generateRandomPlayer 65 (1 / 2) (1 / 2) (1 / 2))).1
      (by simp)).1,
   (C5_population_cap ((List.range 10).map (fun k => (⟨toString k, 0, 0, 5, 300, 0⟩ : Entity)))
      (generateRandomPlayer 65 (1 / 2) (1 / 2) (1 / 2))).2.2 (by simp)⟩

/-- C6: for every registry with pairwise distinct ids and every two entities e1, e2
with the same id (whether or not their coordinates differ), upserting e1 and then
e2 yields a registry whose entities with that id are exactly [e2], whose length is
the length after upserting e1 alone, and in which every entity with another id is
unchanged at its original position. -/
theorem C6_upsert_twice (es : List Entity) (e1 e2 : Entity) (hu : UniqueIDs es)
    (hid : e1.ID = e2.ID) :
    (upsert (upsert es e1) e2).filter (fun p => p.ID = e2.ID) = [e2] ∧
    (upsert (upsert es e1) e2).length = (upsert es e1).length ∧
    (∀ (i : Nat) (p : Entity), es[i]? = some p → p.ID ≠ e2.ID →
      (upsert (upsert es e1) e2)[i]? = some p) ∧
    (upsert (upsert es e1) e2).filter (fun p => p.ID ≠ e2.ID) =
      es.filter (fun p => p.ID ≠ e2.ID) := by
  rw [upsert_replaces_last es e1 e2 hid]
  refine ⟨upsert_filter_same es e2 hu, ?_, ?_, upsert_filter_other es e2⟩
  · rw [upsert_length, upsert_length, hid]
  · intro i p hi hp
    exact upsert_getElem?_other es e2 p i hi hp

/-- C6, at a registry of two entities and two submissions of id "b" with different
coordinates. -/
theorem C6_upsert_twice_witness :
    (upsert (upsert [⟨"a", 1, 1, 5, 300, 0⟩, ⟨"b", 2, 2, 5, 300, 0⟩] ⟨"b", 3, 3, 5, 300, 0⟩)
        ⟨"b", 4, 4, 5, 300, 0⟩).filter (fun p => p.ID = "b") = [⟨"b", 4, 4, 5, 300, 0⟩] ∧
    (upsert (upsert [⟨"a", 1, 1, 5, 300, 0⟩, ⟨"b", 2, 2, 5, 300, 0⟩] ⟨"b", 3, 3, 5, 300, 0⟩)
        ⟨"b", 4, 4, 5, 300, 0⟩).length =
      (upsert [⟨"a", 1, 1, 5, 300, 0⟩, ⟨"b", 2, 2, 5, 300, 0⟩] ⟨"b", 3, 3, 5, 300, 0⟩).length :=
  ⟨(C6_upsert_twice [⟨"a", 1, 1, 5, 300, 0⟩, ⟨"b", 2, 2, 5, 300, 0⟩] ⟨"b", 3, 3, 5, 300, 0⟩
      ⟨"b", 4, 4, 5, 300, 0⟩ (by decide) rfl).1,
   (C6_upsert_twice [⟨"a", 1, 1, 5, 300, 0⟩, ⟨"b", 2, 2, 5, 300, 0⟩] ⟨"b", 3, 3, 5, 300, 0⟩
      ⟨"b", 4, 4, 5, 300, 0⟩ (by decide) rfl).2.1⟩

/-- C7: for every registry with pairwise distinct ids and every session identifier
s, removePlayer yields the registry without the entity whose id is s, every other
entity kept unchanged in the same order; exactly one entity goes when one has id
s, and the registry is returned unchanged when none has. -/
theorem C7_removePlayer_exact (es : List Entity) (s : String) (hu : UniqueIDs es) :
    removePlayer es s = es.filter (fun e => e.ID ≠ s) ∧
    ((∃ e ∈ es, e.ID = s) → (removePlayer es s).length + 1 = es.length) ∧
    ((∀ e ∈ es, e.ID ≠ s) → removePlayer es s = es) :=
  ⟨removePlayer_eq_filter es s hu, removePlayer_length es s, removePlayer_absent es s⟩

/-- C7, at a registry of three entities: removing "b" keeps "a" and "c" in order, and
removing an id nobody has changes nothing. -/
theorem C7_removePlayer_exact_witness :
    removePlayer [⟨"a", 1, 1, 5, 300, 0⟩, ⟨"b", 2, 2, 5, 300, 0⟩, ⟨"c", 3, 3, 5, 300, 0⟩] "b" =
      [⟨"a", 1, 1, 5, 300, 0⟩, ⟨"c", 3, 3, 5, 300, 0⟩] ∧
    removePlayer [⟨"a", 1, 1, 5, 300, 0⟩, ⟨"b", 2, 2, 5, 300, 0⟩, ⟨"c", 3, 3, 5, 300, 0⟩] "z" =
      [⟨"a", 1, 1, 5, 300, 0⟩, ⟨"b", 2, 2, 5, 300, 0⟩, ⟨"c", 3, 3, 5, 300, 0⟩] := by
  refine ⟨?_, ?_⟩
  · rw [(C7_removePlayer_exact
      [⟨"a", 1, 1, 5, 300, 0⟩, ⟨"b", 2, 2, 5, 300, 0⟩, ⟨"c", 3, 3, 5, 300, 0⟩] "b"
      (by decide)).1]
    decide
  · exact (C7_removePlayer_exact
      [⟨"a", 1, 1, 5, 300, 0⟩, ⟨"b", 2, 2, 5, 300, 0⟩, ⟨"c", 3, 3, 5, 300, 0⟩] "z"
      (by decide)).2.2 (by decide)

/-- C8 (the code departs from the claim): from the empty registry, two population
steps whose draws of `rand.Intn(10000000000)` are 2000000 and 3000000 leave two
entities with the same id: both integers are above the last code point 0x10FFFF, so
`string(rune(n))` is the replacement character for both, and the step appends
without looking the id up. -/
theorem C8_spawn_repeats_id :
    (newPlayerTick (newPlayerTick [] (generateRandomPlayer 2000000 (1 / 2) (1 / 2) (1 / 2)))
      (generateRandomPlayer 3000000 (1 / 4) (1 / 4) (1 / 4))).map Entity.ID =
      [String.singleton (Char.ofNat 0xFFFD), String.singleton (Char.ofNat 0xFFFD)] ∧
    ¬ UniqueIDs
      (newPlayerTick (newPlayerTick [] (generateRandomPlayer 2000000 (1 / 2) (1 / 2) (1 / 2)))
        (generateRandomPlayer 3000000 (1 / 4) (1 / 4) (1 / 4))) := by
  constructor
  · decide
  · decide

/-- C9 (the code departs from the claim): on a connection with session "10.0.0.7:51234"
that delivers one well-formed message for id "a" and then fails, the loop leaves the
empty registry empty, where upserting the message and removing the session's
entity gives a registry holding "a"; with two messages, for "a" and then "b", only
"b" is upserted. -/
theorem C9_first_message_dropped :
    handleWebSocket "10.0.0.7:51234" [some ⟨"a", 1, 2, 5, 300, 0⟩] [] = [] ∧
    removePlayer (upsert [] ⟨"a", 1, 2, 5, 300, 0⟩) "10.0.0.7:51234" =
      [⟨"a", 1, 2, 5, 300, 0⟩] ∧
    handleWebSocket "10.0.0.7:51234"
      [some ⟨"a", 1, 2, 5, 300, 0⟩, some ⟨"b", 3, 4, 5, 300, 0⟩] [] =
      [⟨"b", 3, 4, 5, 300, 0⟩] ∧
    removePlayer (upsert (upsert [] ⟨"a", 1, 2, 5, 300, 0⟩) ⟨"b", 3, 4, 5, 300, 0⟩)
      "10.0.0.7:51234" = [⟨"a", 1, 2, 5, 300, 0⟩, ⟨"b", 3, 4, 5, 300, 0⟩] := by
  refine ⟨?_, ?_, ?_, ?_⟩ <;> decide

end Atirario
